import Mathlib

/-!
Verification of the order/identity resolution and validation pipeline of the
claim-page repository, embedded from src/api/verify.js (the deployed endpoint)
and, where a claim cites it, the Firestore variant in src/unnamed/part_000.

Strings are modelled with the Lean String type; the helpers below mirror the
JavaScript string operations on the character-list representation so that all
definitions reduce inside the kernel.  Monetary amounts, which the source keeps
as decimal strings and converts with parseFloat, are modelled as exact rational
numbers; the refunds and totals exercised by the claims are exact decimals.
-/

namespace ClaimPage

/-! ### JavaScript string primitives, on the character-list representation -/

/-- Lowercasing, mirroring String.prototype.toLowerCase on ASCII data. -/
def jsLower (s : String) : String := ⟨s.data.map Char.toLower⟩

/-- Boolean test that the first list starts the second, modelling anchored
regexes. -/
def isPrefixList : List Char → List Char → Bool
  | [], _ => true
  | _ :: _, [] => false
  | p :: ps, s :: ss => p == s && isPrefixList ps ss

/-- Whether s starts with the literal p, mirroring an anchored regex match. -/
def startsWithStr (s p : String) : Bool := isPrefixList p.data s.data

/-- Dropping the first n characters, used after a head-marker match. -/
def dropStr (s : String) (n : Nat) : String := ⟨s.data.drop n⟩

/-- Whitespace trimming, mirroring String.prototype.trim. -/
def trimStr (s : String) : String :=
  ⟨((s.data.dropWhile Char.isWhitespace).reverse.dropWhile Char.isWhitespace).reverse⟩

/-- Number of characters, mirroring the length property on ASCII data. -/
def lengthStr (s : String) : Nat := s.data.length

/-- Substring containment, mirroring String.prototype.includes. -/
def containsSub : List Char → List Char → Bool
  | [], pat => pat.isEmpty
  | h :: t, pat => isPrefixList pat (h :: t) || containsSub t pat

/-- JavaScript truthiness of a nullable string field: null, undefined and the
empty string are falsy. -/
def jsTruthyOpt : Option String → Bool
  | none => false
  | some s => s != ""

/-- First-occurrence deduplication, mirroring the spread of a JavaScript Set
built by insertion order. -/
def dedupAux (seen : List String) : List String → List String
  | [] => []
  | x :: xs => if seen.contains x then dedupAux seen xs else x :: dedupAux (x :: seen) xs

/-! ### Order Reference Normalizer (findShopifyOrder, src/api/verify.js lines 584-597) -/

/-- Strip a leading hash marker, mirroring replace with the anchored hash regex. -/
def stripHash (s : String) : String :=
  if startsWithStr s "#" then dropStr s 1 else s

/-- Strip a leading AG- marker. -/
def stripAGDash (s : String) : String :=
  if startsWithStr s "AG-" then dropStr s 3 else s

/-- Strip a leading AF marker. -/
def stripAFHead (s : String) : String :=
  if startsWithStr s "AF" then dropStr s 2 else s

/-- Strip a leading AG- or hash marker, first alternative wins as in the
anchored alternation regex. -/
def stripAGDashOrHash (s : String) : String :=
  if startsWithStr s "AG-" then dropStr s 3
  else if startsWithStr s "#" then dropStr s 1
  else s

/-- Strip a leading AF, AG- or hash marker, alternatives tried in the order of
the source regex. -/
def stripAnyKnown (s : String) : String :=
  if startsWithStr s "AF" then dropStr s 2
  else if startsWithStr s "AG-" then dropStr s 3
  else if startsWithStr s "#" then dropStr s 1
  else s

/-- Strip a leading hash, AG- or AF marker, alternatives tried in the order of
the regex used by the email-search fallback.  The three markers are mutually
exclusive at the head of a string, so the order is immaterial, but the source
spells the alternation in this order. -/
def stripMarksEmailSide (s : String) : String :=
  if startsWithStr s "#" then dropStr s 1
  else if startsWithStr s "AG-" then dropStr s 3
  else if startsWithStr s "AF" then dropStr s 2
  else s

/-- The raw candidate list of searchQueries, in source order. -/
def searchQueries (orderNumber : String) : List String :=
  [ orderNumber,
    stripHash orderNumber,
    "#" ++ stripHash orderNumber,
    stripAGDash orderNumber,
    "AG-" ++ stripAGDashOrHash orderNumber,
    stripAFHead orderNumber,
    "AF" ++ stripAnyKnown orderNumber ]

/-- uniqueSearchQueries: the deduplicated, order-preserving candidate list. -/
def uniqueSearchQueries (orderNumber : String) : List String :=
  dedupAux [] (searchQueries orderNumber)

/-! ### Order data model (fields read by src/api/verify.js) -/

/-- One refund record; the amount field is a nullable decimal that the source
feeds through parseFloat with a zero default. -/
structure Refund where
  amount : Option ℚ
deriving DecidableEq

/-- The order resource fields that findShopifyOrder and
validateOrderForDelivery read.  Nullable string fields use Option; plain
string fields use the empty string for the JavaScript null, which is
behaviourally identical under the truthiness checks of the source. -/
structure Order where
  id : Nat
  name : String
  email : String
  financial_status : String
  cancelled_at : Option String
  fulfillment_status : String
  refunds : List Refund
  total_price : Option ℚ
  order_number : Option Nat
deriving DecidableEq

/-- Sum of the refund amounts, mirroring the reduce with parseFloat defaults. -/
def refundTotal (o : Order) : ℚ :=
  (o.refunds.map (fun rf => rf.amount.getD 0)).foldl (· + ·) 0

/-- The order total with the parseFloat zero default. -/
def orderTotal (o : Order) : ℚ := o.total_price.getD 0

/-- Outcome of the eligibility validator. -/
inductive ValidationResult where
  | valid : ValidationResult
  | invalid (reason details : String) : ValidationResult
deriving DecidableEq

/-- validateOrderForDelivery, src/api/verify.js lines 698-754, rule for rule in
source order. -/
def validateOrderForDelivery (o : Order) : ValidationResult :=
  if o.financial_status ≠ "paid" ∧ o.financial_status ≠ "partially_paid" then
    .invalid "Order payment not confirmed"
      "Please ensure your payment has been processed before requesting delivery"
  else if jsTruthyOpt o.cancelled_at then
    .invalid "Order has been cancelled" "Cancelled orders are not eligible for delivery"
  else if o.fulfillment_status = "fulfilled" then
    .invalid "Order has already been fulfilled"
      "This order has already been delivered and cannot be claimed again"
  else if o.financial_status = "refunded" ∨ o.financial_status = "partially_refunded" then
    .invalid "Order has been refunded" "Refunded orders are not eligible for delivery"
  else if ¬o.refunds.isEmpty ∧ refundTotal o ≥ orderTotal o then
    .invalid "Order has been fully refunded"
      "Fully refunded orders are not eligible for delivery"
  else .valid

/-! ### Shared validator lemmas -/

/-- Any order whose payment state is refunded or partially refunded fails the
first rule of the validator, which tests for paid or partially paid. -/
lemma validate_refunded_status_payment (o : Order)
    (h : o.financial_status = "refunded" ∨ o.financial_status = "partially_refunded") :
    validateOrderForDelivery o =
      .invalid "Order payment not confirmed"
        "Please ensure your payment has been processed before requesting delivery" := by
  rcases h with h | h <;> simp [validateOrderForDelivery, h]

/-- The reason string of the status-based refunded branch never appears in a
validator result: the branch is shadowed by the first rule. -/
lemma validate_reason_not_refunded (o : Order) (d : String) :
    validateOrderForDelivery o ≠ ValidationResult.invalid "Order has been refunded" d := by
  intro h
  unfold validateOrderForDelivery at h
  by_cases h1 : o.financial_status ≠ "paid" ∧ o.financial_status ≠ "partially_paid"
  · rw [if_pos h1] at h
    simp at h
  · rw [if_neg h1] at h
    by_cases h2 : jsTruthyOpt o.cancelled_at = true
    · rw [if_pos h2] at h
      simp at h
    · rw [if_neg h2] at h
      by_cases h3 : o.fulfillment_status = "fulfilled"
      · rw [if_pos h3] at h
        simp at h
      · rw [if_neg h3] at h
        by_cases h4 : o.financial_status = "refunded" ∨ o.financial_status = "partially_refunded"
        · push_neg at h1
          rcases h4 with h4 | h4 <;> rcases h1 (by rw [h4]; decide) with h5 <;>
            rw [h4] at h5 <;> simp at h5
        · rw [if_neg h4] at h
          by_cases h5 : ¬o.refunds.isEmpty ∧ refundTotal o ≥ orderTotal o
          · rw [if_pos h5] at h
            simp at h
          · rw [if_neg h5] at h
            simp at h

/-! ### Claim C1 -/

/-- A concrete order whose payment state is refunded and whose other fields are
benign. -/
def refundedOrder : Order :=
  { id := 1, name := "#1001", email := "a@b.com", financial_status := "refunded",
    cancelled_at := none, fulfillment_status := "", refunds := [],
    total_price := none, order_number := none }

/-- Claim C1, counterexample: an order with financial_status refunded is
rejected with the reason text of the payment rule, not with the reason text
Order has been refunded that the claim requires. -/
theorem C1_counterexample :
    refundedOrder.financial_status = "refunded" ∧
    validateOrderForDelivery refundedOrder ≠
      ValidationResult.invalid "Order has been refunded"
        "Refunded orders are not eligible for delivery" ∧
    validateOrderForDelivery refundedOrder =
      ValidationResult.invalid "Order payment not confirmed"
        "Please ensure your payment has been processed before requesting delivery" := by
  refine ⟨rfl, ?_, by decide⟩
  decide

/-- Claim C1, amended: for every order whose financial_status is refunded, the
validator returns the Ineligible decision with reason text Order payment not
confirmed, regardless of the values of all other order fields; the dedicated
refunded branch is shadowed by the earlier payment check. -/
theorem C1_theorem (o : Order) (h : o.financial_status = "refunded") :
    validateOrderForDelivery o =
      ValidationResult.invalid "Order payment not confirmed"
        "Please ensure your payment has been processed before requesting delivery" :=
  validate_refunded_status_payment o (Or.inl h)

/-- Claim C1, witness: the amended theorem applied to a concrete refunded
order. -/
theorem C1_witness :
    refundedOrder.financial_status = "refunded" ∧
    validateOrderForDelivery refundedOrder =
      ValidationResult.invalid "Order payment not confirmed"
        "Please ensure your payment has been processed before requesting delivery" :=
  ⟨rfl, C1_theorem refundedOrder rfl⟩

/-! ### Claim C10 -/

/-- A concrete partially refunded order used by the C10 witness. -/
def partiallyRefundedOrder : Order :=
  { id := 2, name := "#1002", email := "c@d.com", financial_status := "partially_refunded",
    cancelled_at := none, fulfillment_status := "", refunds := [],
    total_price := none, order_number := none }

/-- Claim C10: the status-based refunded branch of the validator is
unreachable.  No order ever produces the reason text Order has been refunded,
and every order whose financial_status is refunded or partially_refunded is
already rejected by the payment rule with reason Order payment not
confirmed. -/
theorem C10_theorem (o : Order) :
    (∀ d : String,
      validateOrderForDelivery o ≠ ValidationResult.invalid "Order has been refunded" d) ∧
    ((o.financial_status = "refunded" ∨ o.financial_status = "partially_refunded") →
      validateOrderForDelivery o =
        ValidationResult.invalid "Order payment not confirmed"
          "Please ensure your payment has been processed before requesting delivery") :=
  ⟨fun d => validate_reason_not_refunded o d, fun h => validate_refunded_status_payment o h⟩

/-- Claim C10, witness: the theorem applied to a concrete partially refunded
order, discharging the status hypothesis. -/
theorem C10_witness :
    validateOrderForDelivery partiallyRefundedOrder ≠
      ValidationResult.invalid "Order has been refunded"
        "Refunded orders are not eligible for delivery" ∧
    validateOrderForDelivery partiallyRefundedOrder =
      ValidationResult.invalid "Order payment not confirmed"
        "Please ensure your payment has been processed before requesting delivery" :=
  ⟨(C10_theorem partiallyRefundedOrder).1 "Refunded orders are not eligible for delivery",
   (C10_theorem partiallyRefundedOrder).2 (Or.inr rfl)⟩

/-! ### Claim C5 -/

/-- A paid order with total 100 and refunds summing to 100 that is also
cancelled. -/
def cancelledRefundedByAmount : Order :=
  { id := 3, name := "#1003", email := "e@f.com", financial_status := "paid",
    cancelled_at := some "2024-05-01T00:00:00Z", fulfillment_status := "",
    refunds := [{ amount := some 100 }], total_price := some 100, order_number := none }

/-- A paid, uncancelled, unfulfilled order with total 100 and refunds summing
to 100. -/
def paidRefundedByAmount : Order :=
  { id := 4, name := "#1004", email := "g@h.com", financial_status := "paid",
    cancelled_at := none, fulfillment_status := "",
    refunds := [{ amount := some 100 }], total_price := some 100, order_number := none }

/-- Claim C5, counterexample: a paid order with total 100 and refunds summing
to 100 that is also cancelled is rejected by the earlier cancellation rule, so
the validator does not return a refund reason for every such order. -/
theorem C5_counterexample :
    cancelledRefundedByAmount.total_price = some 100 ∧
    refundTotal cancelledRefundedByAmount = 100 ∧
    cancelledRefundedByAmount.financial_status = "paid" ∧
    validateOrderForDelivery cancelledRefundedByAmount =
      ValidationResult.invalid "Order has been cancelled"
        "Cancelled orders are not eligible for delivery" ∧
    validateOrderForDelivery cancelledRefundedByAmount ≠
      ValidationResult.invalid "Order has been fully refunded"
        "Fully refunded orders are not eligible for delivery" ∧
    validateOrderForDelivery cancelledRefundedByAmount ≠
      ValidationResult.invalid "Order has been refunded"
        "Refunded orders are not eligible for delivery" := by
  refine ⟨rfl, by simp [refundTotal, cancelledRefundedByAmount], rfl, by decide, by decide, by decide⟩

/-- Claim C5, amended: for every order with total_price 100 and refund records
summing to exactly 100, with financial_status paid, provided no earlier rule
fires (no cancellation timestamp and not already fulfilled), the validator
returns Ineligible with the amount-based refund reason text Order has been
fully refunded. -/
theorem C5_theorem (o : Order)
    (htotal : o.total_price = some 100)
    (hsum : refundTotal o = 100)
    (hpaid : o.financial_status = "paid")
    (hcancel : jsTruthyOpt o.cancelled_at = false)
    (hfulfil : o.fulfillment_status ≠ "fulfilled") :
    validateOrderForDelivery o =
      ValidationResult.invalid "Order has been fully refunded"
        "Fully refunded orders are not eligible for delivery" := by
  have hne : ¬o.refunds.isEmpty := by
    intro hemp
    rw [List.isEmpty_iff] at hemp
    rw [refundTotal, hemp] at hsum
    norm_num at hsum
  have hge : refundTotal o ≥ orderTotal o := by
    rw [hsum, orderTotal, htotal]
    norm_num
  simp [validateOrderForDelivery, hpaid, hcancel, hfulfil, hne, hge]

/-- Claim C5, witness: the amended theorem applied to a concrete paid,
uncancelled, unfulfilled order with total 100 and a 100 refund. -/
theorem C5_witness :
    paidRefundedByAmount.total_price = some 100 ∧
    refundTotal paidRefundedByAmount = 100 ∧
    paidRefundedByAmount.financial_status = "paid" ∧
    jsTruthyOpt paidRefundedByAmount.cancelled_at = false ∧
    paidRefundedByAmount.fulfillment_status ≠ "fulfilled" ∧
    validateOrderForDelivery paidRefundedByAmount =
      ValidationResult.invalid "Order has been fully refunded"
        "Fully refunded orders are not eligible for delivery" :=
  ⟨rfl, by simp [refundTotal, paidRefundedByAmount], rfl, rfl, by decide,
   C5_theorem paidRefundedByAmount rfl (by simp [refundTotal, paidRefundedByAmount]) rfl rfl
     (by decide)⟩

/-! ### Order Locator (findShopifyOrder, src/api/verify.js lines 577-696)

The external order store is modelled as an oracle with the two queries the
source issues: the by-name query with limit 1, whose failure modes (non-2xx
response, network error, empty result) all collapse to none exactly as the
source treats them, and the by-email query with bounded page size, modelled as
the returned list. -/

structure Store where
  byName : String → Option Order
  byEmail : String → List Order

/-- The result object of findShopifyOrder; the source returns either null or
an object with the located order and an emailMatch flag. -/
structure SearchResult where
  order : Order
  emailMatch : Bool
deriving DecidableEq

/-- The ownership test of the by-name loop: the order email is truthy and its
lowercased form equals the caller email (already lowercased and trimmed by the
caller). -/
def emailMatches (o : Order) (email : String) : Bool :=
  o.email != "" && jsLower o.email == email

/-- A candidate probe that does not produce an owner match: the by-name query
returns nothing, or returns an order with a non-matching email. -/
def missCheck (store : Store) (email : String) (q : String) : Bool :=
  match store.byName q with
  | none => true
  | some o => !emailMatches o email

/-- The candidate loop of findShopifyOrder: returns the first owner-matched
order, together with the last wrong-owner order remembered along the way. -/
def nameLoop (store : Store) (email : String) :
    List String → Option Order → Option Order × Option Order
  | [], acc => (none, acc)
  | q :: rest, acc =>
    match store.byName q with
    | none => nameLoop store email rest acc
    | some o =>
      if emailMatches o email then (some o, acc)
      else nameLoop store email rest (some o)

/-- The candidate test of the email-search fallback, mirroring the three
disjuncts of the source: exact name equality, stripped numeric order-number
equality, and the AG- recombination check. -/
def orderMatchesQuery (o : Order) (q : String) : Bool :=
  o.name == q ||
  (match o.order_number with
   | some n => toString n == stripMarksEmailSide q
   | none => false) ||
  (o.name != "" && containsSub o.name.data "AG-".data &&
    o.name == "AG-" ++ stripMarksEmailSide q)

/-- Method 2 of findShopifyOrder: fetch the orders of the purchaser email and
scan them for one matching any candidate. -/
def emailFallback (store : Store) (email : String) (qs : List String) : Option Order :=
  (store.byEmail email).find? (fun o => qs.any (fun q => orderMatchesQuery o q))

/-- findShopifyOrder: probe each candidate by name, then fall back to the
by-email search, then report a remembered wrong-owner order, else nothing. -/
def findShopifyOrder (store : Store) (orderNumber email : String) : Option SearchResult :=
  match nameLoop store email (uniqueSearchQueries orderNumber) none with
  | (some o, _) => some ⟨o, true⟩
  | (none, wrong) =>
    match emailFallback store email (uniqueSearchQueries orderNumber) with
    | some o => some ⟨o, true⟩
    | none =>
      match wrong with
      | some o => some ⟨o, false⟩
      | none => none

/-- The caller-side email normalisation of handleOrderVerification:
lowercase, then trim. -/
def cleanEmail (raw : String) : String := trimStr (jsLower raw)

/-! ### Loop lemmas for the locator -/

/-- If every candidate before index k misses, and the candidate at index k
yields an owner-matched order, the loop returns that order. -/
lemma nameLoop_first_match (store : Store) (email : String) :
    ∀ (qs : List String) (k : Nat) (acc : Option Order) (o : Order),
      k < qs.length →
      store.byName (qs.getD k "") = some o →
      emailMatches o email = true →
      ((qs.take k).all (missCheck store email)) = true →
      (nameLoop store email qs acc).1 = some o := by
  intro qs
  induction qs with
  | nil =>
    intro k acc o hk
    simp at hk
  | cons q rest ih =>
    intro k acc o hk hname hmatch hprev
    match k with
    | 0 =>
      simp only [List.getD_cons_zero] at hname
      simp [nameLoop, hname, hmatch]
    | Nat.succ k =>
      simp only [List.take_succ_cons, List.all_cons, Bool.and_eq_true] at hprev
      obtain ⟨hq, hrest⟩ := hprev
      simp only [List.getD_cons_succ] at hname
      have hk2 : k < rest.length := by simpa using hk
      unfold missCheck at hq
      cases hbn : store.byName q with
      | none =>
        simpa [nameLoop, hbn] using ih k acc o hk2 hname hmatch hrest
      | some o2 =>
        rw [hbn] at hq
        have hm2 : emailMatches o2 email = false := by simpa using hq
        simpa [nameLoop, hbn, hm2] using ih k (some o2) o hk2 hname hmatch hrest

/-- If every candidate misses, the loop finds no owner match, and it remembers
a wrong-owner order exactly when the accumulator already held one or some
candidate produced an order. -/
lemma nameLoop_all_miss (store : Store) (email : String) :
    ∀ (qs : List String) (acc : Option Order),
      qs.all (missCheck store email) = true →
      (nameLoop store email qs acc).1 = none ∧
      (nameLoop store email qs acc).2.isSome =
        (acc.isSome || qs.any (fun q => (store.byName q).isSome)) := by
  intro qs
  induction qs with
  | nil =>
    intro acc _
    simp [nameLoop]
  | cons q rest ih =>
    intro acc hall
    simp only [List.all_cons, Bool.and_eq_true] at hall
    obtain ⟨hq, hrest⟩ := hall
    unfold missCheck at hq
    cases hbn : store.byName q with
    | none =>
      obtain ⟨ih1, ih2⟩ := ih acc hrest
      constructor
      · simpa [nameLoop, hbn] using ih1
      · simp [nameLoop, hbn, ih2, List.any_cons]
    | some o2 =>
      rw [hbn] at hq
      have hm2 : emailMatches o2 email = false := by simpa using hq
      obtain ⟨ih1, ih2⟩ := ih (some o2) hrest
      constructor
      · simpa [nameLoop, hbn, hm2] using ih1
      · simp only [nameLoop, hbn, hm2, Bool.false_eq_true, if_false, List.any_cons]
        rw [ih2]
        simp

/-- Any owner match returned by the loop passed the email test. -/
lemma nameLoop_match_sound (store : Store) (email : String) :
    ∀ (qs : List String) (acc : Option Order) (o : Order),
      (nameLoop store email qs acc).1 = some o →
      emailMatches o email = true := by
  intro qs
  induction qs with
  | nil =>
    intro acc o h
    simp [nameLoop] at h
  | cons q rest ih =>
    intro acc o h
    cases hbn : store.byName q with
    | none =>
      rw [show nameLoop store email (q :: rest) acc = nameLoop store email rest acc by
        simp [nameLoop, hbn]] at h
      exact ih acc o h
    | some o2 =>
      by_cases hm : emailMatches o2 email = true
      · rw [show nameLoop store email (q :: rest) acc = (some o2, acc) by
          simp [nameLoop, hbn, hm]] at h
        simp only at h
        injection h with h2
        rw [← h2]
        exact hm
      · have hm2 : emailMatches o2 email = false := by simpa using hm
        rw [show nameLoop store email (q :: rest) acc = nameLoop store email rest (some o2) by
          simp [nameLoop, hbn, hm2]] at h
        exact ih (some o2) o h

/-! ### Claim C9 -/

/-- Claim C9: for every order reference string, the deduplicated candidate
list is non-empty and its first element is the reference unchanged. -/
theorem C9_theorem (r : String) :
    uniqueSearchQueries r ≠ [] ∧ (uniqueSearchQueries r).head? = some r := by
  have h : uniqueSearchQueries r =
      r :: dedupAux [r] [stripHash r, "#" ++ stripHash r, stripAGDash r,
        "AG-" ++ stripAGDashOrHash r, stripAFHead r, "AF" ++ stripAnyKnown r] := rfl
  rw [h]
  exact ⟨by simp, rfl⟩

/-- Claim C9, witness: the property evaluated at a concrete reference. -/
theorem C9_witness :
    uniqueSearchQueries "#1222" ≠ [] ∧
    (uniqueSearchQueries "#1222").head? = some "#1222" :=
  C9_theorem "#1222"

/-! ### Claim C6 -/

/-- Claim C6: if some candidate yields an owner-matched order by name, and
every earlier candidate misses (returns nothing or a wrong-owner order), the
locator returns FoundMatch with that order. -/
theorem C6_theorem (store : Store) (r email : String) (k : Nat) (o : Order)
    (hk : k < (uniqueSearchQueries r).length)
    (hname : store.byName ((uniqueSearchQueries r).getD k "") = some o)
    (hmatch : emailMatches o email = true)
    (hprev : ((uniqueSearchQueries r).take k).all (missCheck store email) = true) :
    findShopifyOrder store r email = some ⟨o, true⟩ := by
  have h1 := nameLoop_first_match store email (uniqueSearchQueries r) k none o hk hname hmatch hprev
  unfold findShopifyOrder
  rcases hnl : nameLoop store email (uniqueSearchQueries r) none with ⟨fst, snd⟩
  rw [hnl] at h1
  simp only at h1
  subst h1
  rfl

/-- An order located by the hash candidate but owned by a different email. -/
def wrongOwnerOrder : Order :=
  { id := 10, name := "#1222", email := "other@x.com", financial_status := "paid",
    cancelled_at := none, fulfillment_status := "", refunds := [],
    total_price := none, order_number := none }

/-- An order located by the stripped candidate and owned by the caller, with
an email differing from the query only in case. -/
def matchingOrder : Order :=
  { id := 11, name := "1222", email := "Test@Shop.com", financial_status := "paid",
    cancelled_at := none, fulfillment_status := "", refunds := [],
    total_price := none, order_number := none }

/-- A store where the first candidate yields a wrong-owner order and the
second candidate yields the true owner match. -/
def storeSix : Store :=
  { byName := fun q =>
      if q = "#1222" then some wrongOwnerOrder
      else if q = "1222" then some matchingOrder
      else none,
    byEmail := fun _ => [] }

/-- Claim C6, witness: with a wrong-owner order at the first candidate and the
owner match at the second, the locator returns the owner match. -/
theorem C6_witness :
    1 < (uniqueSearchQueries "#1222").length ∧
    storeSix.byName ((uniqueSearchQueries "#1222").getD 1 "") = some matchingOrder ∧
    emailMatches matchingOrder "test@shop.com" = true ∧
    ((uniqueSearchQueries "#1222").take 1).all (missCheck storeSix "test@shop.com") = true ∧
    findShopifyOrder storeSix "#1222" "test@shop.com" = some ⟨matchingOrder, true⟩ :=
  ⟨by decide, by decide, by decide, by decide,
   C6_theorem storeSix "#1222" "test@shop.com" 1 matchingOrder
     (by decide) (by decide) (by decide) (by decide)⟩

/-! ### Claim C7 -/

/-- Claim C7: if every candidate misses but at least one candidate yields an
order (necessarily wrong-owner), and the email fallback finds nothing, the
locator returns the wrong-owner result, never the not-found result. -/
theorem C7_theorem (store : Store) (r email : String)
    (hmiss : (uniqueSearchQueries r).all (missCheck store email) = true)
    (hhit : (uniqueSearchQueries r).any (fun q => (store.byName q).isSome) = true)
    (hfb : emailFallback store email (uniqueSearchQueries r) = none) :
    ∃ o : Order, findShopifyOrder store r email = some ⟨o, false⟩ := by
  obtain ⟨h1, h2⟩ := nameLoop_all_miss store email (uniqueSearchQueries r) none hmiss
  rw [hhit] at h2
  simp only [Option.isSome_none, Bool.false_or] at h2
  rw [Option.isSome_iff_exists] at h2
  obtain ⟨o, ho⟩ := h2
  refine ⟨o, ?_⟩
  unfold findShopifyOrder
  rcases hnl : nameLoop store email (uniqueSearchQueries r) none with ⟨fst, snd⟩
  rw [hnl] at h1 ho
  simp only at h1 ho
  subst h1
  subst ho
  simp [hfb]

/-- A store where the only candidate hit is a wrong-owner order and the
by-email query yields nothing. -/
def storeSeven : Store :=
  { byName := fun q => if q = "#1222" then some wrongOwnerOrder else none,
    byEmail := fun _ => [] }

/-- Claim C7, witness: with one wrong-owner hit and an empty email fallback,
the locator reports the wrong-owner result. -/
theorem C7_witness :
    (uniqueSearchQueries "#1222").all (missCheck storeSeven "test@shop.com") = true ∧
    (uniqueSearchQueries "#1222").any (fun q => (storeSeven.byName q).isSome) = true ∧
    emailFallback storeSeven "test@shop.com" (uniqueSearchQueries "#1222") = none ∧
    ∃ o : Order, findShopifyOrder storeSeven "#1222" "test@shop.com" = some ⟨o, false⟩ :=
  ⟨by decide, by decide, by decide,
   C7_theorem storeSeven "#1222" "test@shop.com" (by decide) (by decide) (by decide)⟩

/-! ### Claim C4 -/

/-- An order whose name matches a candidate but whose purchaser email differs
from the caller email; served by the by-email query of a store that does not
honour the email filter. -/
def badOrder : Order :=
  { id := 12, name := "1222", email := "other@x.com", financial_status := "paid",
    cancelled_at := none, fulfillment_status := "", refunds := [],
    total_price := none, order_number := none }

/-- A store whose by-name query always misses and whose by-email query returns
an order owned by a different email. -/
def dishonestStore : Store :=
  { byName := fun _ => none, byEmail := fun _ => [badOrder] }

/-- Claim C4, counterexample: over an arbitrary store oracle, the locator can
return FoundMatch with an order whose email does not match the caller email —
the email-search fallback trusts the store to filter by email and does not
re-check the purchaser email of the matched order. -/
theorem C4_counterexample :
    findShopifyOrder dishonestStore "1222" (cleanEmail "test@shop.com") =
      some ⟨badOrder, true⟩ ∧
    jsLower badOrder.email ≠ cleanEmail "test@shop.com" := by
  decide

/-- Claim C4, amended: for every store whose by-email query returns only
orders whose lowercased purchaser email equals the queried email, a FoundMatch
result implies that the lowercased purchaser email of the returned order
equals the caller email after case-folding and trimming.  The by-name path
guarantees this unconditionally; the by-email fallback relies on the store
honouring its email filter. -/
theorem C4_theorem (store : Store) (r rawEmail : String) (o : Order)
    (honest : ∀ e o2, o2 ∈ store.byEmail e → jsLower o2.email = e)
    (hfound : findShopifyOrder store r (cleanEmail rawEmail) = some ⟨o, true⟩) :
    jsLower o.email = cleanEmail rawEmail := by
  unfold findShopifyOrder at hfound
  rcases hnl : nameLoop store (cleanEmail rawEmail) (uniqueSearchQueries r) none with ⟨fst, snd⟩
  rw [hnl] at hfound
  cases fst with
  | some o2 =>
    simp only [Option.some.injEq, SearchResult.mk.injEq] at hfound
    have hs := nameLoop_match_sound store (cleanEmail rawEmail) (uniqueSearchQueries r) none o2
      (by rw [hnl])
    rw [hfound.1] at hs
    simp only [emailMatches, Bool.and_eq_true, beq_iff_eq] at hs
    exact hs.2
  | none =>
    cases hef : emailFallback store (cleanEmail rawEmail) (uniqueSearchQueries r) with
    | some o2 =>
      rw [hef] at hfound
      simp only [Option.some.injEq, SearchResult.mk.injEq] at hfound
      unfold emailFallback at hef
      have hmem : o2 ∈ store.byEmail (cleanEmail rawEmail) := List.mem_of_find?_eq_some hef
      rw [← hfound.1]
      exact honest (cleanEmail rawEmail) o2 hmem
    | none =>
      rw [hef] at hfound
      cases snd with
      | some w => simp at hfound
      | none => simp at hfound

/-- A store whose by-name query serves the owner match for the stripped
candidate; its by-email query is empty and so trivially honest. -/
def honestStore : Store :=
  { byName := fun q => if q = "1222" then some matchingOrder else none,
    byEmail := fun _ => [] }

/-- Claim C4, witness: the amended theorem applied to an honest store and a
caller email that differs from the stored one in case and whitespace. -/
theorem C4_witness :
    findShopifyOrder honestStore "1222" (cleanEmail " Test@Shop.com ") =
      some ⟨matchingOrder, true⟩ ∧
    jsLower matchingOrder.email = cleanEmail " Test@Shop.com " :=
  ⟨by decide,
   C4_theorem honestStore "1222" " Test@Shop.com " matchingOrder
     (fun e o2 h => absurd h (List.not_mem_nil o2)) (by decide)⟩

/-! ### Identity Resolver (handleUsernameVerification, src/api/verify.js lines 774-914)

The identity provider is modelled as an oracle with three endpoints: the
username-to-id call (none covers a failed request and a non-2xx status, some
gives the data array), the keyword-search call (same convention), and the
avatar-thumbnail call per user id (none covers every failure mode and a
missing or falsy imageUrl).  The wall-clock reading used for the cache-busting
parameter of the fallback avatar URL is passed in explicitly. -/

structure RUser where
  id : Nat
  name : String
deriving DecidableEq

structure RobloxEnv where
  usernameApi : Option (List RUser)
  searchApi : Option (List RUser)
  avatarApi : Nat → Option String

/-- The JSON body of the username handler response; fields absent from a given
response are none. -/
structure UserResponse where
  status : Nat
  userId : Option String
  username : Option String
  avatarUrl : Option String
  method : Option String
  error : Option String
deriving DecidableEq

/-- The fallback avatar URL built from the numeric id and the current clock
reading used as a cache-busting v parameter. -/
def fallbackAvatarUrl (id now : Nat) : String :=
  "https://www.roblox.com/headshot-thumbnail/image?userId=" ++ toString id ++
    "&width=150&height=150&format=png&v=" ++ toString now

/-- The avatar enrichment step: a usable imageUrl from the thumbnails call
replaces the fallback; every failure mode keeps the fallback. -/
def avatarOf (av : Nat → Option String) (id now : Nat) : String :=
  match av id with
  | some url => if url = "" then fallbackAvatarUrl id now else url
  | none => fallbackAvatarUrl id now

/-- The exactness test applied to a provider record: the name is truthy and
equals the query modulo case. -/
def nameMatchesQuery (u : RUser) (clean : String) : Bool :=
  u.name != "" && jsLower u.name == jsLower clean

/-- Method 1: the username-to-id call accepts only a matching first record. -/
def primaryResolve (res : Option (List RUser)) (clean : String) : Option RUser :=
  match res with
  | some (u :: _) => if nameMatchesQuery u clean then some u else none
  | _ => none

/-- Method 2: the keyword-search call scans all records for an exact match. -/
def searchResolve (res : Option (List RUser)) (clean : String) : Option RUser :=
  match res with
  | some users => users.find? (fun u => nameMatchesQuery u clean)
  | none => none

/-- Resolution order of the handler: method 1 wins, method 2 is the fallback;
the tag records which method produced the record, as in the response body. -/
def resolveUser (uapi sapi : Option (List RUser)) (clean : String) :
    Option (RUser × String) :=
  match primaryResolve uapi clean with
  | some u => some (u, "username-to-id-api")
  | none =>
    match searchResolve sapi clean with
    | some u => some (u, "search-api")
    | none => none

/-- The character class of the username format regex. -/
def usernameCharsOk (s : String) : Bool :=
  s.data.all (fun c => c.isAlphanum || c == '_')

/-- handleUsernameVerification: format checks, then method 1, then method 2,
then the not-found response.  The only falsy JavaScript string is the empty
string, so the initial truthiness-and-trim check collapses to a test of the
trimmed username. -/
def handleUsernameVerification (env : RobloxEnv) (username : String) (now : Nat) :
    UserResponse :=
  if trimStr username = "" then
    ⟨400, none, none, none, none, some "Username is required"⟩
  else if lengthStr (trimStr username) < 3 ∨ lengthStr (trimStr username) > 20 then
    ⟨400, none, none, none, none, some "Username must be between 3-20 characters"⟩
  else if ¬usernameCharsOk (trimStr username) then
    ⟨400, none, none, none, none,
      some "Username can only contain letters, numbers, and underscores"⟩
  else
    match resolveUser env.usernameApi env.searchApi (trimStr username) with
    | some (u, m) =>
        ⟨200, some (toString u.id), some u.name, some (avatarOf env.avatarApi u.id now),
          some m, none⟩
    | none =>
        ⟨404, none, none, none, none,
          some ("User \"" ++ trimStr username ++
            "\" not found. Please check the spelling and try again.")⟩

/-- The status of every username handler response is 200, 400 or 404. -/
lemma handleUsername_status_cases (env : RobloxEnv) (u : String) (now : Nat) :
    (handleUsernameVerification env u now).status = 200 ∨
    (handleUsernameVerification env u now).status = 400 ∨
    (handleUsernameVerification env u now).status = 404 := by
  unfold handleUsernameVerification
  by_cases h1 : trimStr u = ""
  · simp [h1]
  · rw [if_neg h1]
    by_cases h2 : lengthStr (trimStr u) < 3 ∨ lengthStr (trimStr u) > 20
    · simp [h2]
    · rw [if_neg h2]
      by_cases h3 : ¬usernameCharsOk (trimStr u)
      · simp [h3]
      · rw [if_neg h3]
        cases resolveUser env.usernameApi env.searchApi (trimStr u) with
        | some p =>
          obtain ⟨ru, m⟩ := p
          simp
        | none => simp

/-! ### Claim C3 -/

/-- Claim C3, counterexample: no upstream condition ever produces a 429 or 502
response from the username handler; the claim that such responses exist is
false. -/
theorem C3_counterexample :
    ¬∃ (env : RobloxEnv) (u : String) (now : Nat),
      (handleUsernameVerification env u now).status = 429 ∨
      (handleUsernameVerification env u now).status = 502 := by
  rintro ⟨env, u, now, h | h⟩ <;>
    rcases handleUsername_status_cases env u now with h2 | h2 | h2 <;> omega

/-- Claim C3, amended: the username handler does not distinguish transient
upstream failures from a genuine not-found: its status is always 200, 400 or
404, and for a well-formed username with both provider calls failing the
response is the same 404 used for a genuinely absent user. -/
theorem C3_theorem (env : RobloxEnv) (u : String) (now : Nat) :
    ((handleUsernameVerification env u now).status = 200 ∨
     (handleUsernameVerification env u now).status = 400 ∨
     (handleUsernameVerification env u now).status = 404) ∧
    (env.usernameApi = none → env.searchApi = none →
      trimStr u ≠ "" →
      ¬(lengthStr (trimStr u) < 3 ∨ lengthStr (trimStr u) > 20) →
      usernameCharsOk (trimStr u) = true →
      (handleUsernameVerification env u now).status = 404) := by
  refine ⟨handleUsername_status_cases env u now, ?_⟩
  intro hu hs h1 h2 h3
  simp [handleUsernameVerification, h1, h2, h3, resolveUser, primaryResolve, searchResolve,
    hu, hs]

/-- Claim C3, witness: with both provider calls failing — for example during
an upstream rate limit or outage — a well-formed username yields 404. -/
theorem C3_witness :
    trimStr "RateLimitedUser" ≠ "" ∧
    ¬(lengthStr (trimStr "RateLimitedUser") < 3 ∨
      lengthStr (trimStr "RateLimitedUser") > 20) ∧
    usernameCharsOk (trimStr "RateLimitedUser") = true ∧
    (handleUsernameVerification ⟨none, none, fun _ => none⟩ "RateLimitedUser" 0).status =
      404 :=
  ⟨by decide, by decide, by decide,
   (C3_theorem ⟨none, none, fun _ => none⟩ "RateLimitedUser" 0).2 rfl rfl
     (by decide) (by decide) (by decide)⟩

/-! ### Claim C8 -/

/-- An environment where the primary lookup succeeds and every avatar lookup
fails. -/
def envAvatarDown : RobloxEnv :=
  ⟨some [⟨42, "TestUser"⟩], none, fun _ => none⟩

/-- Claim C8, counterexample: two resolutions of the same user under
avatar-lookup failure at different clock readings both succeed with 200 but
produce different avatar references — the fallback URL embeds the current
time as a cache-busting parameter, so it is not a function of the user id
alone. -/
theorem C8_counterexample :
    (handleUsernameVerification envAvatarDown "TestUser" 1).status = 200 ∧
    (handleUsernameVerification envAvatarDown "TestUser" 2).status = 200 ∧
    (handleUsernameVerification envAvatarDown "TestUser" 1).avatarUrl ≠
      (handleUsernameVerification envAvatarDown "TestUser" 2).avatarUrl := by
  decide

/-- Claim C8, amended: avatar-lookup failure never blocks resolution — the
response status does not depend on the avatar oracle at all — and under
avatar failure every 200 response carries the fallback avatar URL, a fixed
function of the numeric user id and of the clock reading used as a
cache-busting parameter (so two resolutions of the same user coincide exactly
when their clock readings coincide, not unconditionally). -/
theorem C8_theorem (uapi sapi : Option (List RUser)) (av av2 : Nat → Option String)
    (u : String) (now : Nat) :
    (handleUsernameVerification ⟨uapi, sapi, av⟩ u now).status =
      (handleUsernameVerification ⟨uapi, sapi, av2⟩ u now).status ∧
    ((handleUsernameVerification ⟨uapi, sapi, fun _ => none⟩ u now).status = 200 →
      ∃ ru : RUser,
        (handleUsernameVerification ⟨uapi, sapi, fun _ => none⟩ u now).userId =
          some (toString ru.id) ∧
        (handleUsernameVerification ⟨uapi, sapi, fun _ => none⟩ u now).avatarUrl =
          some (fallbackAvatarUrl ru.id now)) := by
  unfold handleUsernameVerification
  by_cases h1 : trimStr u = ""
  · simp [h1]
  · rw [if_neg h1, if_neg h1, if_neg h1]
    by_cases h2 : lengthStr (trimStr u) < 3 ∨ lengthStr (trimStr u) > 20
    · simp [h2]
    · rw [if_neg h2, if_neg h2, if_neg h2]
      by_cases h3 : ¬usernameCharsOk (trimStr u)
      · simp [h3]
      · rw [if_neg h3, if_neg h3, if_neg h3]
        cases hr : resolveUser uapi sapi (trimStr u) with
        | some p =>
          obtain ⟨ru, m⟩ := p
          refine ⟨rfl, fun _ => ⟨ru, rfl, ?_⟩⟩
          simp [avatarOf]
        | none => simp

/-- Claim C8, witness: the amended theorem applied to a concrete environment
whose primary lookup succeeds (with a name differing from the query only in
case) and whose avatar lookup fails. -/
theorem C8_witness :
    (handleUsernameVerification ⟨some [⟨7, "Alice"⟩], none, fun _ => none⟩ "alice" 5).status =
      200 ∧
    ∃ ru : RUser,
      (handleUsernameVerification ⟨some [⟨7, "Alice"⟩], none, fun _ => none⟩
        "alice" 5).userId = some (toString ru.id) ∧
      (handleUsernameVerification ⟨some [⟨7, "Alice"⟩], none, fun _ => none⟩
        "alice" 5).avatarUrl = some (fallbackAvatarUrl ru.id 5) :=
  ⟨by decide,
   (C8_theorem (some [⟨7, "Alice"⟩]) none (fun _ => none) (fun _ => none) "alice" 5).2
     (by decide)⟩

/-! ### Registration Recorder boundary (handleDeliveryRegistration)

The persistence-sink race of the source (Promise.race between the save call
and the budget timer) is modelled by an explicit outcome: either the save
completed within the budget with its registration id, or the race was lost to
the time budget.  The locally generated fallback id (generateDeliveryId uses
the clock and a random suffix) is passed in explicitly. -/

structure OrderInfo where
  orderNumber : String
  email : String
  items : String
  total : String
deriving DecidableEq

structure RobloxInfo where
  username : String
  userId : Nat
deriving DecidableEq

structure DeliveryData where
  order : Option OrderInfo
  roblox : Option RobloxInfo
deriving DecidableEq

inductive SinkOutcome where
  | completed (registrationId : String) : SinkOutcome
  | timedOut : SinkOutcome
deriving DecidableEq

/-- The JSON body of the registration handler response; fields absent from a
given response are none. -/
structure RegResponse where
  status : Nat
  success : Option Bool
  registrationId : Option String
  canContinue : Option Bool
  error : Option String
deriving DecidableEq

/-- handleDeliveryRegistration, src/api/verify.js lines 207-323: presence
check, then the sink race; the timeout branch answers 200 with success true,
the locally generated fallback id and canContinue true. -/
def handleDeliveryRegistration (d : DeliveryData) (outcome : SinkOutcome)
    (fallbackId : String) : RegResponse :=
  if d.order.isNone || d.roblox.isNone then
    { status := 400, success := none, registrationId := none, canContinue := none,
      error := some "Missing required delivery data" }
  else
    match outcome with
    | .timedOut =>
        { status := 200, success := some true, registrationId := some fallbackId,
          canContinue := some true, error := none }
    | .completed rid =>
        { status := 200, success := some true, registrationId := some rid,
          canContinue := none, error := none }

/-- handleDeliveryRegistration of the Firestore variant, src/unnamed/part_000
lines 102-197: presence and sub-field checks, then the sink race; the timeout
branch answers 202 with success false, the fallback id and canContinue
true. -/
def handleDeliveryRegistrationFS (d : DeliveryData) (outcome : SinkOutcome)
    (fallbackId : String) : RegResponse :=
  if d.order.isNone || d.roblox.isNone then
    { status := 400, success := none, registrationId := none, canContinue := none,
      error := some "Missing required delivery data" }
  else
    match d.order, d.roblox with
    | some oi, some ri =>
      if oi.orderNumber == "" || oi.email == "" then
        { status := 400, success := none, registrationId := none, canContinue := none,
          error := some "Invalid order data - missing orderNumber or email" }
      else if ri.username == "" || ri.userId == 0 then
        { status := 400, success := none, registrationId := none, canContinue := none,
          error := some "Invalid Roblox data - missing username or userId" }
      else
        match outcome with
        | .timedOut =>
            { status := 202, success := some false, registrationId := some fallbackId,
              canContinue := some true, error := none }
        | .completed rid =>
            { status := 200, success := some true, registrationId := some rid,
              canContinue := none, error := none }
    | _, _ =>
      { status := 400, success := none, registrationId := none, canContinue := none,
        error := some "Missing required delivery data" }

/-! ### Claim C2 -/

/-- A well-formed delivery registration request. -/
def deliveryRequest : DeliveryData :=
  ⟨some ⟨"#1222", "test@shop.com", "Digital Items", "10.00"⟩, some ⟨"Alice", 7⟩⟩

/-- Claim C2, counterexample: in src/api/verify.js a sink timeout on a
well-formed request is answered with status 200, not 202, though it does carry
the locally generated id and canContinue true. -/
theorem C2_counterexample :
    deliveryRequest.order.isSome = true ∧
    deliveryRequest.roblox.isSome = true ∧
    (handleDeliveryRegistration deliveryRequest .timedOut "DEL_1_ABC123").status = 200 ∧
    (handleDeliveryRegistration deliveryRequest .timedOut "DEL_1_ABC123").status ≠ 202 ∧
    (handleDeliveryRegistration deliveryRequest .timedOut "DEL_1_ABC123").registrationId =
      some "DEL_1_ABC123" ∧
    (handleDeliveryRegistration deliveryRequest .timedOut "DEL_1_ABC123").canContinue =
      some true := by
  decide

/-- Claim C2, amended: when the sink race is lost to the time budget on a
request with both sub-objects present (and, for the Firestore variant, their
required sub-fields), the handler never answers with an error: the deployed
src/api/verify.js answers 200 and the Firestore variant answers 202, each
carrying the locally generated registrationId and canContinue true. -/
theorem C2_theorem (oi : OrderInfo) (ri : RobloxInfo) (fid : String)
    (hon : oi.orderNumber ≠ "") (he : oi.email ≠ "")
    (hun : ri.username ≠ "") (hid : ri.userId ≠ 0) :
    handleDeliveryRegistration ⟨some oi, some ri⟩ .timedOut fid =
      { status := 200, success := some true, registrationId := some fid,
        canContinue := some true, error := none } ∧
    handleDeliveryRegistrationFS ⟨some oi, some ri⟩ .timedOut fid =
      { status := 202, success := some false, registrationId := some fid,
        canContinue := some true, error := none } := by
  constructor
  · simp [handleDeliveryRegistration]
  · simp [handleDeliveryRegistrationFS, hon, he, hun, hid]

/-- Claim C2, witness: the amended theorem applied to a concrete well-formed
request and fallback id. -/
theorem C2_witness :
    handleDeliveryRegistration ⟨some ⟨"#1222", "test@shop.com", "Digital Items", "10.00"⟩,
        some ⟨"Alice", 7⟩⟩ .timedOut "DEL_9_XYZ789" =
      { status := 200, success := some true, registrationId := some "DEL_9_XYZ789",
        canContinue := some true, error := none } ∧
    handleDeliveryRegistrationFS ⟨some ⟨"#1222", "test@shop.com", "Digital Items", "10.00"⟩,
        some ⟨"Alice", 7⟩⟩ .timedOut "DEL_9_XYZ789" =
      { status := 202, success := some false, registrationId := some "DEL_9_XYZ789",
        canContinue := some true, error := none } :=
  C2_theorem ⟨"#1222", "test@shop.com", "Digital Items", "10.00"⟩ ⟨"Alice", 7⟩
    "DEL_9_XYZ789" (by decide) (by decide) (by decide) (by decide)

end ClaimPage
